import Mathlib

/-!
Shallow embedding of the strillone webhook relay server (src/server.go).

The server receives DNSimple webhook events over HTTP, deduplicates them by
`RequestID` through a 300-second TTL cache, and forwards each new event to a
Slack channel identified by three path segments joined into a token.

External collaborators are embedded as function parameters:
  - `parseEvent` stands for `webhook.ParseEvent` (dnsimple-go dependency);
  - `client` stands for the outbound Slack delivery performed by
    `SlackService.PostEvent` (repository code not under src/, reduced by the
    spec to "given a destination credential and an Event, returns formatted
    text or fails").
The TTL cache (`wunderlist/ttlcache` dependency) is modelled from the spec.
Machine time is embedded as a `Nat` of unix-epoch seconds passed explicitly.
-/

namespace Strillone

/-- What represents the program name (src/server.go line 17). -/
def What : String := "dnsimple-strillone"

/-- cacheTTL is the dedup window in seconds (src/server.go line 24). -/
def cacheTTL : Nat := 300

/-- headerProcessingStatus (src/server.go line 25). -/
def headerProcessingStatus : String := "X-Processing-Status"

/-- Event is the parsed webhook envelope produced by `webhook.ParseEvent`.
Only `RequestID` is inspected by server.go; `Name` stands for the remaining
payload carried through to the outbound client. -/
structure Event where
  RequestID : String
  Name : String
  deriving DecidableEq, Repr

/-- Modelled from the spec: the Dedup Cache. Its implementation,
`wunderlist/ttlcache` (src/server.go line 39, `ttlcache.NewCache`), is a
dependency not under src/. The spec describes a time-bounded membership
store: an entry recorded by `Set` at `insertTime` is visible exactly during
`[insertTime, insertTime + 300s)`, and `Set` overwrites any prior entry for
the same key with a fresh expiry. We store each key with its insert time. -/
structure Cache where
  entries : List (String × Nat)
  deriving DecidableEq, Repr

/-- Modelled from the spec: `Get(key) → present`, lazy-expiry semantics —
present iff some recorded insert time `t` satisfies `t ≤ now < t + cacheTTL`. -/
def Cache.Get (c : Cache) (k : String) (now : Nat) : Bool :=
  c.entries.any fun e => e.1 == k && (decide (e.2 ≤ now) && decide (now < e.2 + cacheTTL))

/-- Modelled from the spec: `Set(key)` records `key` as present with a fresh
300-second expiry, overwriting any prior entry for the same key. -/
def Cache.Set (c : Cache) (k : String) (now : Nat) : Cache :=
  ⟨(k, now) :: c.entries.filter (fun e => e.1 != k)⟩

/-- The empty cache, the state right after `ttlcache.NewCache`
(src/server.go line 39). -/
def Cache.empty : Cache := ⟨[]⟩

/-- Response models what the handler writes to the `http.ResponseWriter`:
a status code, the headers the handler itself sets, and the body text. -/
structure Response where
  status : Nat
  headers : List (String × String)
  body : String
  deriving DecidableEq, Repr

/-- httpError models Go's `http.Error(w, msg, code)`: it sets plain-text
headers and writes `msg` followed by a newline. -/
def httpError (msg : String) (code : Nat) : Response :=
  ⟨code, [("Content-Type", "text/plain; charset=utf-8"), ("X-Content-Type-Options", "nosniff")],
   msg ++ "\n"⟩

/-- SlackService (field `Token`) as constructed at src/server.go line 117. -/
structure SlackService where
  Token : String
  deriving DecidableEq, Repr

/-- Modelled from the spec: `SlackService.PostEvent` (repository code not
under src/). The spec reduces it to the outbound notification client: given
the destination credential (the service token) and the Event, it returns the
formatted delivery text or fails; the dispatcher delegates a single call and
propagates the result untouched, with no retries. The client itself is a
parameter. -/
def SlackService.PostEvent (client : String → Event → Except String String)
    (s : SlackService) (e : Event) : Except String String :=
  client s.Token e

/-- slackToken is the destination credential built at src/server.go line 115:
`fmt.Sprintf("%s/%s/%s", slackAlpha, slackBeta, slackGamma)`. -/
def slackToken (slackAlpha slackBeta slackGamma : String) : String :=
  slackAlpha ++ "/" ++ slackBeta ++ "/" ++ slackGamma

/-- Slack embeds the handler `Server.Slack` (src/server.go lines 83-128).
`parseEvent` stands for `webhook.ParseEvent`, `client` for the outbound
Slack call inside `SlackService.PostEvent`. The handler threads the
process-wide `processedEvents` cache explicitly and receives the current
time `now`. It returns the response written and the cache afterwards. -/
def Slack (parseEvent : String → Except String Event)
    (client : String → Event → Except String String)
    (method : String) (slackAlpha slackBeta slackGamma : String)
    (body : String) (cache : Cache) (now : Nat) : Response × Cache :=
  if method ≠ "POST" then
    (⟨405, [], ""⟩, cache)
  else
    match parseEvent body with
    | .error msg => (httpError msg 400, cache)
    | .ok event =>
      let cacheExists := cache.Get event.RequestID now
      if cacheExists then
        (⟨200, [(headerProcessingStatus, "skipped;already-processed")], ""⟩, cache)
      else
        let token := slackToken slackAlpha slackBeta slackGamma
        let service : SlackService := ⟨token⟩
        match service.PostEvent client event with
        | .error msg => (httpError msg 500, cache)
        | .ok text => (⟨200, [], text ++ "\n"⟩, cache.Set event.RequestID now)

/-- Root embeds the handler `Server.Root` (src/server.go lines 75-80): it
sets the JSON content type and prints the ping body with the current unix
time; `fmt.Fprintln` appends a newline. -/
def Root (now : Nat) : Response :=
  ⟨200, [("Content-type", "application/json")],
   "\x7b\"ping\":\"" ++ toString now ++ "\",\"what\":\"" ++ What ++ "\"\x7d\n"⟩

/-- NewServerRoutes lists the routes registered in `NewServer`
(src/server.go lines 63-64) as (method, path pattern) pairs. -/
def NewServerRoutes : List (String × String) :=
  [("GET", "/"), ("POST", "/slack/:slackAlpha/:slackBeta/:slackGamma")]

/-! Helper lemmas about the Dedup Cache. -/

lemma any_filter_ne (l : List (String × Nat)) (k : String) (f : String × Nat → Bool) :
    (l.filter fun e => e.1 != k).any (fun e => e.1 == k && f e) = false := by
  simp only [List.any_eq_false]
  intro e he
  have hne : e.1 ≠ k := by simpa using (List.mem_filter.mp he).2
  simp [hne]

lemma Cache.get_set (c : Cache) (k : String) (t t' : Nat) :
    (c.Set k t).Get k t' = (decide (t ≤ t') && decide (t' < t + cacheTTL)) := by
  simp only [Cache.Set, Cache.Get, List.any_cons, beq_self_eq_true, Bool.true_and,
    any_filter_ne, Bool.or_false]

lemma Cache.get_set_iff (c : Cache) (k : String) (t t' : Nat) :
    (c.Set k t).Get k t' = true ↔ (t ≤ t' ∧ t' < t + cacheTTL) := by
  simp [Cache.get_set]

lemma Cache.get_empty (k : String) (t : Nat) : Cache.empty.Get k t = false := rfl

lemma Cache.get_of_not_mem (c : Cache) (k : String) (t : Nat)
    (h : ∀ e ∈ c.entries, e.1 ≠ k) : c.Get k t = false := by
  simp only [Cache.Get, List.any_eq_false]
  intro e he
  simp [h e he]

/-- duplicateResponse is the response written at src/server.go lines 109-110:
the processing-status header and a 200 status with no body. -/
def duplicateResponse : Response :=
  ⟨200, [(headerProcessingStatus, "skipped;already-processed")], ""⟩

/-- C5: for every post whose parsed `RequestID` is already present in the
Dedup Cache, the response has status 200, the header `X-Processing-Status:
skipped;already-processed` and an empty body, the cache is unchanged, and no
relay call is made: the result does not depend on the outbound client. -/
theorem C5_duplicate_skipped (parseEvent : String → Except String Event)
    (client client₂ : String → Event → Except String String)
    (a b c body : String) (cache : Cache) (now : Nat) (event : Event)
    (hparse : parseEvent body = .ok event)
    (hdup : cache.Get event.RequestID now = true) :
    Slack parseEvent client "POST" a b c body cache now = (duplicateResponse, cache)
    ∧ Slack parseEvent client₂ "POST" a b c body cache now =
        Slack parseEvent client "POST" a b c body cache now := by
  constructor <;> simp [Slack, hparse, hdup, duplicateResponse, headerProcessingStatus]

/-- C5 witness: a concrete duplicate post is answered skipped;already-processed. -/
theorem C5_witness :
    Slack (fun _ => .ok ⟨"abc123", "domain.renew"⟩) (fun _ _ => .ok "sent")
        "POST" "T1" "T2" "T3" "evt" (Cache.Set Cache.empty "abc123" 0) 10 =
      (duplicateResponse, Cache.Set Cache.empty "abc123" 0) :=
  (C5_duplicate_skipped (fun _ => .ok ⟨"abc123", "domain.renew"⟩) (fun _ _ => .ok "sent")
    (fun _ _ => .ok "sent") "T1" "T2" "T3" "evt" (Cache.Set Cache.empty "abc123" 0) 10
    ⟨"abc123", "domain.renew"⟩ rfl (by decide)).1

/-- C10: deduplication is keyed solely by the event's `RequestID` and ignores
the routing parameters: when the id is present in the cache, the response and
resulting cache are identical for any routing segments and any outbound
client, and equal the skipped-duplicate outcome. -/
theorem C10_dedup_ignores_routing (parseEvent : String → Except String Event)
    (client client₂ : String → Event → Except String String)
    (a b c a₂ b₂ c₂ body : String) (cache : Cache) (now : Nat) (event : Event)
    (hparse : parseEvent body = .ok event)
    (hdup : cache.Get event.RequestID now = true) :
    Slack parseEvent client "POST" a b c body cache now =
      Slack parseEvent client₂ "POST" a₂ b₂ c₂ body cache now
    ∧ Slack parseEvent client "POST" a b c body cache now = (duplicateResponse, cache) := by
  constructor <;> simp [Slack, hparse, hdup, duplicateResponse, headerProcessingStatus]

/-- C10 witness: the duplicate branch gives the same answer on two different
routes with two different clients. -/
theorem C10_witness :
    Slack (fun _ => .ok ⟨"abc123", "domain.renew"⟩) (fun _ _ => .ok "sent")
        "POST" "T1" "T2" "T3" "evt" (Cache.Set Cache.empty "abc123" 0) 10 =
      Slack (fun _ => .ok ⟨"abc123", "domain.renew"⟩) (fun _ _ => .error "down")
        "POST" "U1" "U2" "U3" "evt" (Cache.Set Cache.empty "abc123" 0) 10 :=
  (C10_dedup_ignores_routing (fun _ => .ok ⟨"abc123", "domain.renew"⟩)
    (fun _ _ => .ok "sent") (fun _ _ => .error "down") "T1" "T2" "T3" "U1" "U2" "U3" "evt"
    (Cache.Set Cache.empty "abc123" 0) 10 ⟨"abc123", "domain.renew"⟩ rfl (by decide)).1

/-- C3: when parsing the body fails, the handler answers 400 with the error
text, mutates no cache state, makes no relay attempt (the result does not
depend on the outbound client), and a second identical malformed post on the
resulting state again yields the 400 parse error, never skipped-duplicate. -/
theorem C3_parse_error (parseEvent : String → Except String Event)
    (client client₂ client₃ : String → Event → Except String String)
    (a b c body msg : String) (cache : Cache) (now now₂ : Nat)
    (hparse : parseEvent body = .error msg) :
    Slack parseEvent client "POST" a b c body cache now = (httpError msg 400, cache)
    ∧ Slack parseEvent client₂ "POST" a b c body cache now =
        Slack parseEvent client "POST" a b c body cache now
    ∧ Slack parseEvent client₃ "POST" a b c body
        (Slack parseEvent client "POST" a b c body cache now).2 now₂ =
        (httpError msg 400, cache) := by
  refine ⟨?_, ?_, ?_⟩ <;> simp [Slack, hparse]

/-- C3 witness: two consecutive malformed posts both answer 400 with the
parse error text and leave the cache empty. -/
theorem C3_witness :
    Slack (fun _ => .error "unsupported event") (fun _ _ => .ok "sent")
        "POST" "T1" "T2" "T3" "bad" Cache.empty 0 = (httpError "unsupported event" 400, Cache.empty)
    ∧ Slack (fun _ => .error "unsupported event") (fun _ _ => .ok "sent")
        "POST" "T1" "T2" "T3" "bad"
        (Slack (fun _ => .error "unsupported event") (fun _ _ => .ok "sent")
          "POST" "T1" "T2" "T3" "bad" Cache.empty 0).2 5 =
        (httpError "unsupported event" 400, Cache.empty) :=
  ⟨(C3_parse_error (fun _ => .error "unsupported event") (fun _ _ => .ok "sent")
      (fun _ _ => .ok "sent") (fun _ _ => .ok "sent") "T1" "T2" "T3" "bad"
      "unsupported event" Cache.empty 0 5 rfl).1,
   (C3_parse_error (fun _ => .error "unsupported event") (fun _ _ => .ok "sent")
      (fun _ _ => .ok "sent") (fun _ _ => .ok "sent") "T1" "T2" "T3" "bad"
      "unsupported event" Cache.empty 0 5 rfl).2.2⟩

/-- C7: for every 3-tuple of routing segments, the destination credential is
the three segments joined with `/` (no validation of their contents: the
equation holds for arbitrary strings, empty ones included), and the Relay
Dispatcher delegates exactly one call to the outbound client, returning its
result — success text or failure — unchanged. -/
theorem C7_relay_dispatcher (slackAlpha slackBeta slackGamma : String)
    (client : String → Event → Except String String) (event : Event) :
    slackToken slackAlpha slackBeta slackGamma =
      slackAlpha ++ "/" ++ slackBeta ++ "/" ++ slackGamma
    ∧ SlackService.PostEvent client ⟨slackToken slackAlpha slackBeta slackGamma⟩ event =
        client (slackAlpha ++ "/" ++ slackBeta ++ "/" ++ slackGamma) event :=
  ⟨rfl, rfl⟩

/-- rootPingBody is the shape of the `Root` body for a given ping value `p`:
the JSON text printed at src/server.go line 79 plus the trailing newline of
`fmt.Fprintln`. -/
def rootPingBody (p : Nat) : String :=
  "\x7b\"ping\":\"" ++ toString p ++ "\",\"what\":\"" ++ What ++ "\"\x7d\n"

/-- C9: every `GET /` request answers status 200 with the JSON ping body
carrying the current unix-epoch seconds and the program name; across two
calls at non-decreasing clock times the embedded ping values are
non-decreasing. -/
theorem C9_root_ping (t₁ t₂ : Nat) (h : t₁ ≤ t₂) :
    (Root t₁).status = 200
    ∧ (Root t₁).headers = [("Content-type", "application/json")]
    ∧ ∃ p₁ p₂ : Nat, (Root t₁).body = rootPingBody p₁ ∧ (Root t₂).body = rootPingBody p₂
        ∧ p₁ ≤ p₂ :=
  ⟨rfl, rfl, t₁, t₂, rfl, rfl, h⟩

/-- C9 witness: concrete calls at times 5 and then 7. -/
theorem C9_witness :
    5 ≤ 7
    ∧ ((Root 5).status = 200
       ∧ (Root 5).headers = [("Content-type", "application/json")]
       ∧ ∃ p₁ p₂ : Nat, (Root 5).body = rootPingBody p₁ ∧ (Root 7).body = rootPingBody p₂
           ∧ p₁ ≤ p₂) :=
  ⟨by decide, C9_root_ping 5 7 (by decide)⟩

/-- C8 counterexample: the route table registered by `NewServer` contains no
`POST /relay/:segA/:segB/:segC` entry — the ingestion endpoint is not the
path the claim states. -/
theorem C8_counterexample :
    ¬ (("POST", "/relay/:segA/:segB/:segC") ∈ NewServerRoutes) := by
  decide

/-- C8 amended: the ingestion endpoint is `POST
/slack/:slackAlpha/:slackBeta/:slackGamma`, whose body is the raw webhook
payload; a non-POST method reaching the handler yields 405 with an empty
body and an unchanged cache. -/
theorem C8_ingestion_route (parseEvent : String → Except String Event)
    (client : String → Event → Except String String)
    (method a b c body : String) (cache : Cache) (now : Nat)
    (h : method ≠ "POST") :
    ("POST", "/slack/:slackAlpha/:slackBeta/:slackGamma") ∈ NewServerRoutes
    ∧ Slack parseEvent client method a b c body cache now = (⟨405, [], ""⟩, cache) := by
  refine ⟨by decide, ?_⟩
  simp [Slack, h]

/-- C8 witness: a concrete GET on the ingestion route is answered 405 with
an empty body. -/
theorem C8_witness :
    ("GET" : String) ≠ "POST"
    ∧ (("POST", "/slack/:slackAlpha/:slackBeta/:slackGamma") ∈ NewServerRoutes
       ∧ Slack (fun _ => .ok ⟨"abc123", "domain.renew"⟩) (fun _ _ => .ok "sent")
           "GET" "T1" "T2" "T3" "evt" Cache.empty 0 = (⟨405, [], ""⟩, Cache.empty)) :=
  ⟨by decide, C8_ingestion_route (fun _ => .ok ⟨"abc123", "domain.renew"⟩)
    (fun _ _ => .ok "sent") "GET" "T1" "T2" "T3" "evt" Cache.empty 0 (by decide)⟩

/-- C2: when the outbound client fails for a `RequestID` absent from the
cache, the handler answers 500 with the error text and the cache is returned
untouched; a subsequent post of the same body at any later time still
attempts the relay — a then-successful client yields the forwarded outcome,
not skipped-duplicate. -/
theorem C2_relay_error_no_poison (parseEvent : String → Except String Event)
    (client : String → Event → Except String String)
    (a b c body msg : String) (cache : Cache) (now : Nat) (event : Event)
    (hparse : parseEvent body = .ok event)
    (hfree : ∀ e ∈ cache.entries, e.1 ≠ event.RequestID)
    (hfail : client (slackToken a b c) event = .error msg) :
    Slack parseEvent client "POST" a b c body cache now = (httpError msg 500, cache)
    ∧ ∀ (client₂ : String → Event → Except String String) (text : String) (now₂ : Nat),
        client₂ (slackToken a b c) event = .ok text →
        Slack parseEvent client₂ "POST" a b c body cache now₂ =
          (⟨200, [], text ++ "\n"⟩, cache.Set event.RequestID now₂) := by
  have hmiss : ∀ t, cache.Get event.RequestID t = false := fun t =>
    Cache.get_of_not_mem cache event.RequestID t hfree
  constructor
  · simp [Slack, hparse, hmiss now, SlackService.PostEvent, hfail]
  · intro client₂ text now₂ hok
    simp [Slack, hparse, hmiss now₂, SlackService.PostEvent, hok]

/-- C2 witness: a failing client answers 500 and a retry with a working
client forwards. -/
theorem C2_witness :
    Slack (fun _ => .ok ⟨"abc123", "domain.renew"⟩) (fun _ _ => .error "channel_not_found")
        "POST" "T1" "T2" "T3" "evt" Cache.empty 0 =
      (httpError "channel_not_found" 500, Cache.empty)
    ∧ Slack (fun _ => .ok ⟨"abc123", "domain.renew"⟩) (fun _ _ => .ok "sent")
        "POST" "T1" "T2" "T3" "evt" Cache.empty 42 =
      (⟨200, [], "sent" ++ "\n"⟩, Cache.Set Cache.empty "abc123" 42) :=
  ⟨(C2_relay_error_no_poison (fun _ => .ok ⟨"abc123", "domain.renew"⟩)
      (fun _ _ => .error "channel_not_found") "T1" "T2" "T3" "evt" "channel_not_found"
      Cache.empty 0 ⟨"abc123", "domain.renew"⟩ rfl (by simp [Cache.empty]) rfl).1,
   (C2_relay_error_no_poison (fun _ => .ok ⟨"abc123", "domain.renew"⟩)
      (fun _ _ => .error "channel_not_found") "T1" "T2" "T3" "evt" "channel_not_found"
      Cache.empty 0 ⟨"abc123", "domain.renew"⟩ rfl (by simp [Cache.empty]) rfl).2
     (fun _ _ => .ok "sent") "sent" 42 rfl⟩

/-- C1: a valid event whose `RequestID` misses the Dedup Cache is forwarded —
the handler answers 200 with the relay confirmation text and records the id —
and posting the same body again within `cacheTTL` seconds yields the
skipped-duplicate outcome without invoking the relay: the second answer is
the same for every outbound client and every routing segments. -/
theorem C1_forward_then_skip (parseEvent : String → Except String Event)
    (client client₂ : String → Event → Except String String)
    (a b c a₂ b₂ c₂ body text : String) (cache : Cache) (now now₂ : Nat) (event : Event)
    (hparse : parseEvent body = .ok event)
    (hmiss : cache.Get event.RequestID now = false)
    (hok : client (slackToken a b c) event = .ok text)
    (h₁ : now ≤ now₂) (h₂ : now₂ < now + cacheTTL) :
    Slack parseEvent client "POST" a b c body cache now =
      (⟨200, [], text ++ "\n"⟩, cache.Set event.RequestID now)
    ∧ Slack parseEvent client₂ "POST" a₂ b₂ c₂ body (cache.Set event.RequestID now) now₂ =
        (duplicateResponse, cache.Set event.RequestID now) := by
  have hget : (cache.Set event.RequestID now).Get event.RequestID now₂ = true :=
    (Cache.get_set_iff cache event.RequestID now now₂).mpr ⟨h₁, h₂⟩
  constructor
  · simp [Slack, hparse, hmiss, SlackService.PostEvent, hok]
  · simp [Slack, hparse, hget, duplicateResponse, headerProcessingStatus]

/-- C1 witness: a concrete event is forwarded at time 0 and skipped as
duplicate at time 100, even with a different client and a different route. -/
theorem C1_witness :
    Slack (fun _ => .ok ⟨"abc123", "domain.renew"⟩) (fun _ _ => .ok "sent")
        "POST" "T1" "T2" "T3" "evt" Cache.empty 0 =
      (⟨200, [], "sent" ++ "\n"⟩, Cache.Set Cache.empty "abc123" 0)
    ∧ Slack (fun _ => .ok ⟨"abc123", "domain.renew"⟩) (fun _ _ => .error "down")
        "POST" "U1" "U2" "U3" "evt" (Cache.Set Cache.empty "abc123" 0) 100 =
      (duplicateResponse, Cache.Set Cache.empty "abc123" 0) :=
  C1_forward_then_skip (fun _ => .ok ⟨"abc123", "domain.renew"⟩) (fun _ _ => .ok "sent")
    (fun _ _ => .error "down") "T1" "T2" "T3" "U1" "U2" "U3" "evt" "sent"
    Cache.empty 0 100 ⟨"abc123", "domain.renew"⟩ rfl (by decide) rfl
    (by decide) (by decide)

/-- C4: an entry recorded by `Set` at time `t` is visible exactly during
`[t, t + cacheTTL)` — `Get` is true exactly when `t ≤ t' < t + cacheTTL` —
and a post of the same `RequestID` once the window has elapsed is treated as
new: the relay is invoked again and the outcome is forwarded. -/
theorem C4_cache_window (parseEvent : String → Except String Event)
    (client : String → Event → Except String String)
    (a b c body text k : String) (c₀ : Cache) (t now₂ : Nat) (event : Event)
    (hparse : parseEvent body = .ok event)
    (hid : event.RequestID = k)
    (hexp : t + cacheTTL ≤ now₂)
    (hok : client (slackToken a b c) event = .ok text) :
    (∀ t', (Cache.Set c₀ k t).Get k t' = true ↔ (t ≤ t' ∧ t' < t + cacheTTL))
    ∧ Slack parseEvent client "POST" a b c body (Cache.Set c₀ k t) now₂ =
        (⟨200, [], text ++ "\n"⟩, (Cache.Set c₀ k t).Set k now₂) := by
  have hmiss : (Cache.Set c₀ k t).Get k now₂ = false := by
    have hexp' : t + 300 ≤ now₂ := by simpa [cacheTTL] using hexp
    simp only [Cache.get_set, cacheTTL, Bool.and_eq_false_imp, decide_eq_true_eq,
      decide_eq_false_iff_not]
    omega
  refine ⟨fun t' => Cache.get_set_iff c₀ k t t', ?_⟩
  simp [Slack, hparse, hid, hmiss, SlackService.PostEvent, hok]

/-- C4 witness: an entry set at time 0 has expired at time 300 and the same
event is forwarded again. -/
theorem C4_witness :
    Slack (fun _ => .ok ⟨"abc123", "domain.renew"⟩) (fun _ _ => .ok "sent")
        "POST" "T1" "T2" "T3" "evt" (Cache.Set Cache.empty "abc123" 0) 300 =
      (⟨200, [], "sent" ++ "\n"⟩, (Cache.Set Cache.empty "abc123" 0).Set "abc123" 300) :=
  (C4_cache_window (fun _ => .ok ⟨"abc123", "domain.renew"⟩) (fun _ _ => .ok "sent")
    "T1" "T2" "T3" "evt" "sent" "abc123" Cache.empty 0 300 ⟨"abc123", "domain.renew"⟩
    rfl rfl (by decide) rfl).2

/-! Interleaving model of concurrent `Server.Slack` handlers for one fixed
valid event. Each in-flight request is a handler that executes the dedup
check of src/server.go line 106 and, on a miss, the successful relay call
plus the `Set` of line 125 as two separate atomic actions, which is exactly
the race window the code leaves open between `Get` and `Set`. -/

/-- Outcome of one handler for the fixed event: the forwarded response of
line 127 or the skipped-duplicate response of lines 109-111. -/
inductive Outcome where
  | forwarded
  | skippedDuplicate
  deriving DecidableEq, Repr

/-- Phase of one in-flight handler: before the cache check, between the
check and the relay-plus-record action, or finished with an outcome. -/
inductive Phase where
  | start
  | relaying
  | done (o : Outcome)
  deriving DecidableEq, Repr

/-- Phase.isDone is true once the handler has produced its response. -/
def Phase.isDone : Phase → Bool
  | .done _ => true
  | _ => false

/-- World is the shared state: the process-wide `processedEvents` cache and
the phase of every in-flight handler. -/
structure World where
  cache : Cache
  handlers : List Phase
  deriving DecidableEq, Repr

/-- step performs the next atomic action of handler `i` for the fixed event
id `k` at time `now`, with an outbound client that succeeds: from `start` it
runs the `Get` of line 106 (a hit finishes with the duplicate response of
lines 107-112, a miss proceeds to the relay); from `relaying` it runs the
successful `PostEvent` of line 118, the `Set` of line 125 and the forwarded
response of line 127. A finished or absent handler leaves the world as is. -/
def step (k : String) (now : Nat) (w : World) (i : Nat) : World :=
  match w.handlers[i]? with
  | some .start =>
    if w.cache.Get k now then ⟨w.cache, w.handlers.set i (.done .skippedDuplicate)⟩
    else ⟨w.cache, w.handlers.set i .relaying⟩
  | some .relaying => ⟨w.cache.Set k now, w.handlers.set i (.done .forwarded)⟩
  | _ => w

/-- run executes a schedule: an arbitrary interleaving of the handlers'
atomic actions. -/
def run (k : String) (now : Nat) (w : World) (sched : List Nat) : World :=
  sched.foldl (step k now) w

/-- initWorld is the state with a fresh cache and `n` handlers about to
process the same event concurrently. -/
def initWorld (n : Nat) : World :=
  ⟨Cache.empty, List.replicate n .start⟩

lemma mem_set_of_ne {α : Type} (l : List α) (i : Nat) (a b c : α)
    (ha : a ∈ l) (hi : l[i]? = some b) (hab : a ≠ b) : a ∈ l.set i c := by
  induction l generalizing i with
  | nil => cases ha
  | cons x xs ih =>
    cases i with
    | zero =>
      have hx : x = b := by simpa using hi
      rcases List.mem_cons.mp ha with rfl | h
      · exact absurd hx hab
      · exact List.mem_cons_of_mem _ h
    | succ m =>
      rw [List.getElem?_cons_succ] at hi
      rcases List.mem_cons.mp ha with rfl | h
      · exact List.mem_cons_self _ _
      · exact List.mem_cons_of_mem _ (ih m h hi)

lemma Cache.get_set_now (c : Cache) (k : String) (now : Nat) :
    (c.Set k now).Get k now = true := by
  rw [Cache.get_set_iff]
  exact ⟨le_refl now, by simp [cacheTTL]⟩

/-- RaceInv ties the cache to the handler phases: the event id is recorded
iff some handler has already forwarded, and a handler only ends skipped
after the id has been recorded. -/
def RaceInv (k : String) (now : Nat) (w : World) : Prop :=
  (w.cache.Get k now = true → Phase.done .forwarded ∈ w.handlers)
  ∧ (Phase.done .skippedDuplicate ∈ w.handlers → w.cache.Get k now = true)

lemma raceInv_init (k : String) (now n : Nat) : RaceInv k now (initWorld n) := by
  constructor
  · intro h
    rw [initWorld] at h
    simp [Cache.get_empty] at h
  · intro h
    rw [initWorld] at h
    simp [List.mem_replicate] at h

lemma raceInv_step (k : String) (now : Nat) (w : World) (i : Nat)
    (h : RaceInv k now w) : RaceInv k now (step k now w i) := by
  cases hp : w.handlers[i]? with
  | none => simpa [step, hp] using h
  | some p =>
    cases p with
    | start =>
      by_cases hg : w.cache.Get k now = true
      · simp only [step, hp, hg, if_true]
        refine ⟨?_, ?_⟩
        · intro _
          exact mem_set_of_ne _ i _ Phase.start _ (h.1 hg) hp (by simp)
        · intro _
          exact hg
      · have hg' : w.cache.Get k now = false := by
          cases hgg : w.cache.Get k now
          · rfl
          · exact absurd hgg hg
        simp only [step, hp, hg', Bool.false_eq_true, if_false]
        refine ⟨?_, ?_⟩
        · intro h1
          exact absurd h1 hg
        · intro hmem
          rcases List.mem_or_eq_of_mem_set hmem with hmem' | heq
          · exact h.2 hmem'
          · exact absurd heq (by simp)
    | relaying =>
      simp only [step, hp]
      refine ⟨?_, ?_⟩
      · intro _
        exact List.mem_set _ i (List.getElem?_eq_some.mp hp).1 _
      · intro _
        exact Cache.get_set_now w.cache k now
    | done o =>
      simpa [step, hp] using h

lemma raceInv_run (k : String) (now : Nat) (w : World) (sched : List Nat)
    (h : RaceInv k now w) : RaceInv k now (run k now w sched) := by
  induction sched generalizing w with
  | nil => exact h
  | cons i rest ih =>
    rw [run, List.foldl_cons]
    exact ih (step k now w i) (raceInv_step k now w i h)

lemma step_length (k : String) (now : Nat) (w : World) (i : Nat) :
    (step k now w i).handlers.length = w.handlers.length := by
  cases hp : w.handlers[i]? with
  | none => simp [step, hp]
  | some p =>
    cases p with
    | start =>
      by_cases hg : w.cache.Get k now = true
      · simp [step, hp, hg]
      · have hg' : w.cache.Get k now = false := by
          cases hgg : w.cache.Get k now
          · rfl
          · exact absurd hgg hg
        simp [step, hp, hg']
    | relaying => simp [step, hp]
    | done o => simp [step, hp]

lemma run_length (k : String) (now : Nat) (w : World) (sched : List Nat) :
    (run k now w sched).handlers.length = w.handlers.length := by
  induction sched generalizing w with
  | nil => rfl
  | cons i rest ih =>
    rw [run, List.foldl_cons]
    exact (ih (step k now w i)).trans (step_length k now w i)

/-- C6 counterexample: two handlers for the same `RequestID` interleaved as
check-check-relay-relay both finish with the forwarded outcome — the number
of forwarded outcomes is 2, not exactly one, and both successes are recorded
by the code (there is no canonical-success accounting). -/
theorem C6_counterexample :
    (run "abc123" 0 (initWorld 2) [0, 1, 0, 1]).handlers =
      [.done .forwarded, .done .forwarded]
    ∧ ¬ ((run "abc123" 0 (initWorld 2) [0, 1, 0, 1]).handlers.count
          (Phase.done .forwarded) = 1) := by
  constructor
  · decide
  · decide

/-- C6 amended: under concurrent posts of the same valid event with the same
`RequestID` (relay succeeding), every completed interleaving yields at least
one forwarded outcome, every handler finishes either forwarded or
skipped-duplicate, and a handler whose cache check runs after some handler
has recorded its success finishes skipped-duplicate; more than one forwarded
outcome is possible during the race window. -/
theorem C6_amended (k : String) (now n : Nat) (sched : List Nat)
    (hn : 0 < n)
    (hdone : ∀ p ∈ (run k now (initWorld n) sched).handlers, p.isDone = true) :
    Phase.done .forwarded ∈ (run k now (initWorld n) sched).handlers
    ∧ (∀ p ∈ (run k now (initWorld n) sched).handlers,
        p = .done .forwarded ∨ p = .done .skippedDuplicate)
    ∧ (∀ (w : World) (i : Nat), w.cache.Get k now = true →
        w.handlers[i]? = some .start →
        (step k now w i).handlers[i]? = some (.done .skippedDuplicate)) := by
  have hinv := raceInv_run k now (initWorld n) sched (raceInv_init k now n)
  have hlen : (run k now (initWorld n) sched).handlers.length = n := by
    rw [run_length]
    simp [initWorld]
  have hcases : ∀ p ∈ (run k now (initWorld n) sched).handlers,
      p = .done .forwarded ∨ p = .done .skippedDuplicate := by
    intro p hp
    have hd := hdone p hp
    cases p with
    | start => simp [Phase.isDone] at hd
    | relaying => simp [Phase.isDone] at hd
    | done o =>
      cases o with
      | forwarded => exact Or.inl rfl
      | skippedDuplicate => exact Or.inr rfl
  refine ⟨?_, hcases, ?_⟩
  · by_contra hnf
    have hne : (run k now (initWorld n) sched).handlers ≠ [] := by
      intro h0
      rw [h0] at hlen
      simp at hlen
      omega
    obtain ⟨p, hp⟩ := List.exists_mem_of_ne_nil _ hne
    rcases hcases p hp with rfl | rfl
    · exact hnf hp
    · exact hnf (hinv.1 (hinv.2 hp))
  · intro w i hg hi
    simp only [step, hi, hg, if_true]
    exact List.getElem?_set_self (List.getElem?_eq_some.mp hi).1

/-- C6 amended witness: with two handlers and the schedule where the first
completes before the second checks, the outcomes are one forwarded and one
skipped-duplicate, so the forwarded outcome occurs. -/
theorem C6_witness :
    Phase.done .forwarded ∈ (run "abc123" 0 (initWorld 2) [0, 0, 1]).handlers :=
  (C6_amended "abc123" 0 2 [0, 0, 1] (by decide) (by decide)).1

end Strillone
